import Mathlib

/-
Verification development for the Policy Gate of `app/api/generate-structure/route.ts`
(EVΛƎ financial demo).  The gate computes mortgage affordability ratios from the
applicant figures, classifies the request as PASS or HOLD, selects a bottleneck
constraint and back-solves remediation amounts.

The embedding is exact: JavaScript floating point numbers are modelled by ℚ, and
`Math.round` by the floor-based half-up rounding JavaScript uses.  Every function
below mirrors the corresponding definition of the route handler (the first,
authoritative revision of the file).
-/

namespace EvaeGate

/-- The fixed bank policy constants (`POLICY` in the route file). -/
structure Policy where
  dtiMaxPct : ℚ
  downPaymentMinPct : ℚ
  annualRatePct : ℚ
  years : ℚ
  ltiMax : ℚ
  otherDebtMonthlyPct : ℚ

/-- `POLICY` constant from the source: DTI max 35%, down payment min 10%,
rate 1.5%/yr, 35-year term, LTI max 7, other-debt monthly coefficient 2%. -/
def POLICY : Policy :=
  { dtiMaxPct := 35
    downPaymentMinPct := 10
    annualRatePct := 3/2
    years := 35
    ltiMax := 7
    otherDebtMonthlyPct := 2 }

/-- JavaScript `Math.round`: rounds to the nearest integer, halves toward +∞. -/
def jsRound (x : ℚ) : ℤ := ⌊x + 1/2⌋

/-- `round1` from the source: `Math.round(n * 10) / 10`, rounding to one decimal. -/
def round1 (x : ℚ) : ℚ := (jsRound (x * 10) : ℚ) / 10

/-- The amortization term in months: `Math.max(1, Math.round(years * 12))`. -/
def nMonths (years : ℚ) : ℕ := (max 1 (jsRound (years * 12))).toNat

/-- `amortPaymentMan`: monthly payment (man-yen) of a fixed-rate amortized loan.
Zero for non-positive principal; straight-line `P / n` at zero rate; otherwise
`P·r·(1+r)^n / ((1+r)^n − 1)` with monthly rate `r` and term `n` months. -/
def amortPaymentMan (principalMan annualRatePct years : ℚ) : ℚ :=
  if principalMan ≤ 0 then 0
  else
    let r := annualRatePct / 100 / 12
    let n := nMonths years
    if r = 0 then principalMan / (n : ℚ)
    else
      let pow := (1 + r) ^ n
      principalMan * r * pow / (pow - 1)

/-- `principalFromPaymentMan`: principal (man-yen) recovered from a monthly
payment; the algebraic inverse of `amortPaymentMan` in each branch. -/
def principalFromPaymentMan (paymentMan annualRatePct years : ℚ) : ℚ :=
  if paymentMan ≤ 0 then 0
  else
    let r := annualRatePct / 100 / 12
    let n := nMonths years
    if r = 0 then paymentMan * (n : ℚ)
    else
      let pow := (1 + r) ^ n
      paymentMan * ((pow - 1) / (r * pow))

/-- The three gating ratio constraints. -/
inductive BottleneckKey
  | DTI
  | DOWN
  | LTI
deriving DecidableEq

/-- `pickBottleneck`: computes the signed badness gap of each ratio constraint,
keeps the violated ones (gap > 0), stably sorts them by gap descending (the JS
`sort((a, b) => b.v - a.v)` on ≤ 3 elements) and returns the head, or `none`
when no gap is positive. -/
def pickBottleneck (dtiPct downPct lti : ℚ) : Option BottleneckKey :=
  let dtiGap := dtiPct - POLICY.dtiMaxPct
  let downGap := POLICY.downPaymentMinPct - downPct
  let ltiGap := lti - POLICY.ltiMax
  let candidates : List (BottleneckKey × ℚ) :=
    [(BottleneckKey.DTI, dtiGap), (BottleneckKey.DOWN, downGap), (BottleneckKey.LTI, ltiGap)]
  let bads := candidates.filter (fun x => 0 < x.2)
  match bads.insertionSort (fun a b => b.2 ≤ a.2) with
  | [] => none
  | x :: _ => some x.1

/-- Gate reason: 年収が未入力/0のため、指標計算が成立しない -/
def incomeInvalidMsg : String := "年収が未入力/0のため、指標計算が成立しない"

/-- Gate reason: 申込金額が未入力/0のため、指標計算が成立しない -/
def loanInvalidMsg : String := "申込金額が未入力/0のため、指標計算が成立しない"

/-- Gate reason: 自己資金が負の値 -/
def assetsInvalidMsg : String := "自己資金が負の値"

/-- Gate reason: 他債務が負の値 -/
def otherDebtInvalidMsg : String := "他債務が負の値"

/-- Gate reason: DTIが上限(35%)を超過 (interpolated with POLICY.dtiMaxPct = 35). -/
def dtiViolationMsg : String := "DTIが上限(35%)を超過"

/-- Gate reason: 頭金比率が最低(10%)を下回る (interpolated with 10). -/
def downViolationMsg : String := "頭金比率が最低(10%)を下回る"

/-- Gate reason: LTIが目安上限(7倍)を超過 (interpolated with 7). -/
def ltiViolationMsg : String := "LTIが目安上限(7倍)を超過"

/-- Monthly income (man-yen): `incomeMan / 12` when positive, else 0. -/
def monthlyIncomeMan (incomeMan : ℚ) : ℚ :=
  if 0 < incomeMan then incomeMan / 12 else 0

/-- Estimated monthly other-debt payment: balance × 2% when positive, else 0. -/
def estOtherDebtPayMan (otherDebtMan : ℚ) : ℚ :=
  if 0 < otherDebtMan then otherDebtMan * (POLICY.otherDebtMonthlyPct / 100) else 0

/-- Estimated monthly mortgage payment at the policy rate and term. -/
def estMortgagePayMan (loanRequestMan : ℚ) : ℚ :=
  amortPaymentMan loanRequestMan POLICY.annualRatePct POLICY.years

/-- DTI percentage: total monthly debt service over monthly income × 100,
0 when monthly income is not positive. -/
def dtiPct (incomeMan otherDebtMan loanRequestMan : ℚ) : ℚ :=
  if 0 < monthlyIncomeMan incomeMan then
    (estMortgagePayMan loanRequestMan + estOtherDebtPayMan otherDebtMan) /
      monthlyIncomeMan incomeMan * 100
  else 0

/-- Down-payment percentage: `assets / (loan + assets) × 100`, 0 when the
denominator is not positive. -/
def downPaymentPct (assetsMan loanRequestMan : ℚ) : ℚ :=
  if 0 < loanRequestMan + assetsMan then
    assetsMan / (loanRequestMan + assetsMan) * 100
  else 0

/-- Loan-to-income multiple: `loan / income` when income positive, else 0. -/
def lti (incomeMan loanRequestMan : ℚ) : ℚ :=
  if 0 < incomeMan then loanRequestMan / incomeMan else 0

/-- The input-validity gate reasons pushed before any ratio check. -/
def inputValidityReasons (incomeMan assetsMan otherDebtMan loanRequestMan : ℚ) : List String :=
  (if incomeMan ≤ 0 then [incomeInvalidMsg] else []) ++
  (if loanRequestMan ≤ 0 then [loanInvalidMsg] else []) ++
  (if assetsMan < 0 then [assetsInvalidMsg] else []) ++
  (if otherDebtMan < 0 then [otherDebtInvalidMsg] else [])

/-- The ratio-threshold gate reasons (policy gate Λ). -/
def ratioReasons (incomeMan assetsMan otherDebtMan loanRequestMan : ℚ) : List String :=
  (if POLICY.dtiMaxPct < dtiPct incomeMan otherDebtMan loanRequestMan
    then [dtiViolationMsg] else []) ++
  (if downPaymentPct assetsMan loanRequestMan < POLICY.downPaymentMinPct
    then [downViolationMsg] else []) ++
  (if POLICY.ltiMax < lti incomeMan loanRequestMan then [ltiViolationMsg] else [])

/-- The full gate reason list: the input-validity reasons if any fired, and
only otherwise the ratio-threshold reasons (the source pushes ratio reasons
only when `gateReasons.length === 0` after the validity checks). -/
def gateReasons (incomeMan assetsMan otherDebtMan loanRequestMan : ℚ) : List String :=
  if inputValidityReasons incomeMan assetsMan otherDebtMan loanRequestMan = [] then
    ratioReasons incomeMan assetsMan otherDebtMan loanRequestMan
  else
    inputValidityReasons incomeMan assetsMan otherDebtMan loanRequestMan

/-- PASS / HOLD classification. -/
inductive Decision
  | HOLD
  | PASS
deriving DecidableEq

/-- `decision`: HOLD when the gate reason list is non-empty, else PASS. -/
def decision (incomeMan assetsMan otherDebtMan loanRequestMan : ℚ) : Decision :=
  if 0 < (gateReasons incomeMan assetsMan otherDebtMan loanRequestMan).length
    then Decision.HOLD else Decision.PASS

/-- The three remediation amounts (`required` in the response). -/
structure Required where
  reduceLoanManForDTI : ℚ
  increaseAssetsManForDownPayment : ℚ
  reduceOtherDebtMan : ℚ
deriving DecidableEq

/-- The raw (pre-rounding, pre-flooring) remediation amounts: the values of the
mutable locals `reduceLoanManForDTI`, `increaseAssetsManForDownPayment` and
`reduceOtherDebtMan` at the end of the `if (E.incomeMan > 0 && E.loanRequestMan > 0)`
block. -/
def requiredRaw (incomeMan assetsMan otherDebtMan loanRequestMan : ℚ) : Required :=
  if 0 < incomeMan ∧ 0 < loanRequestMan then
    let maxPayMan := monthlyIncomeMan incomeMan * (POLICY.dtiMaxPct / 100)
    let allowMortgagePay := maxPayMan - estOtherDebtPayMan otherDebtMan
    let reduceOtherDebtMan : ℚ :=
      if allowMortgagePay ≤ 0 then
        let needReducePay := estOtherDebtPayMan otherDebtMan - maxPayMan
        if 0 < needReducePay then needReducePay / (POLICY.otherDebtMonthlyPct / 100) else 0
      else 0
    let reduceLoanManForDTI : ℚ :=
      if allowMortgagePay ≤ 0 then 0
      else
        let principalAllowed :=
          principalFromPaymentMan allowMortgagePay POLICY.annualRatePct POLICY.years
        let reduce := loanRequestMan - principalAllowed
        if 0 < reduce then reduce else 0
    let requiredAssets :=
      POLICY.downPaymentMinPct / (100 - POLICY.downPaymentMinPct) * loanRequestMan
    let inc := requiredAssets - assetsMan
    { reduceLoanManForDTI := reduceLoanManForDTI
      increaseAssetsManForDownPayment := if 0 < inc then inc else 0
      reduceOtherDebtMan := reduceOtherDebtMan }
  else
    { reduceLoanManForDTI := 0, increaseAssetsManForDownPayment := 0, reduceOtherDebtMan := 0 }

/-- The reported `required` object: each raw amount floored at 0 and rounded to
one decimal (`round1(Math.max(0, x))`). -/
def required (incomeMan assetsMan otherDebtMan loanRequestMan : ℚ) : Required :=
  let raw := requiredRaw incomeMan assetsMan otherDebtMan loanRequestMan
  { reduceLoanManForDTI := round1 (max 0 raw.reduceLoanManForDTI)
    increaseAssetsManForDownPayment := round1 (max 0 raw.increaseAssetsManForDownPayment)
    reduceOtherDebtMan := round1 (max 0 raw.reduceOtherDebtMan) }

/-- The rounded metrics object of the response. -/
structure Metrics where
  monthlyIncomeMan : ℚ
  principalMan : ℚ
  estMortgagePayMan : ℚ
  estOtherDebtPayMan : ℚ
  dtiPct : ℚ
  downPaymentPct : ℚ
  lti : ℚ
deriving DecidableEq

/-- `metrics` of the response: each computed metric rounded to one decimal. -/
def metrics (incomeMan assetsMan otherDebtMan loanRequestMan : ℚ) : Metrics :=
  { monthlyIncomeMan := round1 (monthlyIncomeMan incomeMan)
    principalMan := round1 loanRequestMan
    estMortgagePayMan := round1 (estMortgagePayMan loanRequestMan)
    estOtherDebtPayMan := round1 (estOtherDebtPayMan otherDebtMan)
    dtiPct := round1 (dtiPct incomeMan otherDebtMan loanRequestMan)
    downPaymentPct := round1 (downPaymentPct assetsMan loanRequestMan)
    lti := round1 (lti incomeMan loanRequestMan) }

/-- The signed headroom triple (DTI, down payment, LTI) of the response. -/
structure Headroom where
  dtiPct : ℚ
  downPaymentPct : ℚ
  lti : ℚ
deriving DecidableEq

/-- `headroom`: signed distance of each ratio from its threshold, rounded. -/
def headroom (incomeMan assetsMan otherDebtMan loanRequestMan : ℚ) : Headroom :=
  { dtiPct := round1 (POLICY.dtiMaxPct - dtiPct incomeMan otherDebtMan loanRequestMan)
    downPaymentPct :=
      round1 (downPaymentPct assetsMan loanRequestMan - POLICY.downPaymentMinPct)
    lti := round1 (POLICY.ltiMax - lti incomeMan loanRequestMan) }

/-- Everything of the gate computation that depends only on the four numeric
applicant figures: reasons, decision, metrics, bottleneck, headroom, required. -/
structure GateCore where
  gateReasons : List String
  decision : Decision
  metrics : Metrics
  bottleneck : Option BottleneckKey
  headroom : Headroom
  required : Required
deriving DecidableEq

/-- The gate computation of the `POST` body, as a function of the four
numeric fields only (age/job/family are not read by any of these parts). -/
def gateCore (incomeMan assetsMan otherDebtMan loanRequestMan : ℚ) : GateCore :=
  { gateReasons := gateReasons incomeMan assetsMan otherDebtMan loanRequestMan
    decision := decision incomeMan assetsMan otherDebtMan loanRequestMan
    metrics := metrics incomeMan assetsMan otherDebtMan loanRequestMan
    bottleneck :=
      pickBottleneck (dtiPct incomeMan otherDebtMan loanRequestMan)
        (downPaymentPct assetsMan loanRequestMan) (lti incomeMan loanRequestMan)
    headroom := headroom incomeMan assetsMan otherDebtMan loanRequestMan
    required := required incomeMan assetsMan otherDebtMan loanRequestMan }

/-- The request payload after `fin` coercion of the numeric fields (absent or
non-finite numeric inputs have already been normalized to 0, so each numeric
field is a rational; age/job/family keep their optional, non-numeric nature). -/
structure Payload where
  age : Option ℚ := none
  job : Option String := none
  family : Option String := none
  incomeMan : ℚ := 0
  assetsMan : ℚ := 0
  otherDebtMan : ℚ := 0
  loanRequestMan : ℚ := 0

/-- Soft flag: 完済時年齢が高い可能性 -/
def ageFlagMsg : String := "完済時年齢が高い可能性（追加確認が必要）"

/-- Soft flag: 雇用形態 -/
def jobFlagMsg : String := "雇用形態により収入安定性の追加確認が必要（デモ）"

/-- Soft flag: 家族構成 -/
def familyFlagMsg : String := "家族構成により生活費前提の精緻化余地（デモ）"

/-- The advisory soft flags: completion age above 80, unstable employment
category, family string mentioning a child.  A JS string is truthy iff
non-empty, hence the explicit non-emptiness tests. -/
def softFlags (body : Payload) : List String :=
  (match body.age with
   | some a => if 0 < a ∧ 80 < a + POLICY.years then [ageFlagMsg] else []
   | none => []) ++
  (match body.job with
   | some j =>
      if j ≠ "" ∧ j ∈ ["自営業", "契約/派遣", "パート/アルバイト"] then [jobFlagMsg] else []
   | none => []) ++
  (match body.family with
   | some f => if f ≠ "" ∧ f.contains '子' then [familyFlagMsg] else []
   | none => [])

/-- The response parts the claims are about: the gate core plus the soft flags
(the `flags` field of the response is `gateReasons ++ softFlags`). -/
structure Response where
  core : GateCore
  softFlags : List String
deriving DecidableEq

/-- The `POST` handler's gate computation on a (normalized) payload. -/
def POST (body : Payload) : Response :=
  { core := gateCore body.incomeMan body.assetsMan body.otherDebtMan body.loanRequestMan
    softFlags := softFlags body }

/-- The concrete growth factor `(1 + r)^n` at the policy rate and term. -/
def policyPow : ℚ := (1 + POLICY.annualRatePct / 100 / 12) ^ nMonths POLICY.years

/-- The concrete payment-per-principal coefficient at the policy rate and term:
`r·(1+r)^n / ((1+r)^n − 1)`. -/
def policyPayCoeff : ℚ :=
  POLICY.annualRatePct / 100 / 12 * policyPow / (policyPow - 1)

/-- Bottleneck selection as the specification words it: among the three signed
gaps, the constraint with the largest positive gap wins, and ties are broken by
the fixed precedence DTI > DOWN > LTI; `none` when no gap is positive.  Stated
from the spec's words in order to compare it against `pickBottleneck`. -/
def pickBottleneckSpec (dtiPct downPct lti : ℚ) : Option BottleneckKey :=
  let dtiGap := dtiPct - POLICY.dtiMaxPct
  let downGap := POLICY.downPaymentMinPct - downPct
  let ltiGap := lti - POLICY.ltiMax
  if 0 < dtiGap ∧ downGap ≤ dtiGap ∧ ltiGap ≤ dtiGap then some BottleneckKey.DTI
  else if 0 < downGap ∧ ltiGap ≤ downGap then some BottleneckKey.DOWN
  else if 0 < ltiGap then some BottleneckKey.LTI
  else none

/-- Payload with income left at 0 and a 3000 man-yen loan request (the spec's
second worked example). -/
def payIncomeZero : Payload := { incomeMan := 0, loanRequestMan := 3000 }

/-- A payload that passes the gate: income 600, assets 400, no other debt,
loan request 3000. -/
def payPassing : Payload := { incomeMan := 600, assetsMan := 400, loanRequestMan := 3000 }

/-- Payload with every numeric field zero. -/
def payAllZero : Payload := { }

/-- Payload with invalid (negative) other debt. -/
def payNegativeDebt : Payload :=
  { incomeMan := 600, assetsMan := 300, otherDebtMan := -5, loanRequestMan := 3000 }

/-- A payload with soft-flag-relevant fields set (old age, unstable job,
family with a child). -/
def paySoftFlagged : Payload :=
  { age := some 50, job := some "自営業", family := some "夫婦+子1"
    incomeMan := 600, assetsMan := 400, otherDebtMan := 0, loanRequestMan := 3000 }

/-- The same numeric figures as `paySoftFlagged` with no soft-flag fields. -/
def payUnflagged : Payload :=
  { incomeMan := 600, assetsMan := 400, otherDebtMan := 0, loanRequestMan := 3000 }

/- ------------------------------------------------------------------ -/
/- Helper lemmas                                                      -/
/- ------------------------------------------------------------------ -/

/-- The amortization term is always at least one month. -/
theorem nMonths_pos (years : ℚ) : 0 < nMonths years := by
  unfold nMonths
  have h := le_max_left 1 (jsRound (years * 12))
  omega

/-- At the 35-year policy term the amortization runs over 420 months. -/
theorem nMonths_policy : nMonths POLICY.years = 420 := by
  have hy : POLICY.years = 35 := rfl
  rw [hy]
  unfold nMonths
  have h : jsRound ((35 : ℚ) * 12) = 420 := by
    unfold jsRound
    norm_num [Int.floor_eq_iff]
  rw [h]
  decide

/-- `round1` of zero is zero. -/
theorem round1_zero : round1 0 = 0 := by
  have h : ⌊(0 : ℚ) * 10 + 1/2⌋ = 0 := by norm_num [Int.floor_eq_iff]
  unfold round1 jsRound
  rw [h]
  norm_num

/-- `round1` preserves non-negativity. -/
theorem round1_nonneg {x : ℚ} (hx : 0 ≤ x) : 0 ≤ round1 x := by
  unfold round1 jsRound
  have h : (0 : ℤ) ≤ ⌊x * 10 + 1/2⌋ := by
    rw [Int.le_floor]
    push_cast
    nlinarith
  have h10 : (0 : ℚ) ≤ 10 := by norm_num
  exact div_nonneg (by exact_mod_cast h) h10

/-- The policy monthly rate is positive. -/
theorem policyRate_pos : 0 < POLICY.annualRatePct / 100 / 12 := by
  norm_num [POLICY]

/-- The policy growth factor exceeds one. -/
theorem policyPow_gt_one : 1 < policyPow := by
  unfold policyPow
  rw [nMonths_policy]
  norm_num [POLICY]

/-- The policy payment coefficient is positive. -/
theorem policyPayCoeff_pos : 0 < policyPayCoeff := by
  unfold policyPayCoeff
  have h1 := policyPow_gt_one
  have h2 := policyRate_pos
  have hnum : 0 < POLICY.annualRatePct / 100 / 12 * policyPow := by nlinarith
  exact div_pos hnum (by linarith)

/-- At a positive principal, the mortgage payment is the principal scaled by
the policy payment coefficient. -/
theorem estMortgagePayMan_eq {l : ℚ} (hl : 0 < l) :
    estMortgagePayMan l = l * policyPayCoeff := by
  unfold estMortgagePayMan amortPaymentMan policyPayCoeff policyPow
  rw [if_neg (not_le.mpr hl), if_neg (ne_of_gt policyRate_pos)]
  ring

/-- At a non-positive principal, the mortgage payment is zero. -/
theorem estMortgagePayMan_of_nonpos {l : ℚ} (hl : l ≤ 0) :
    estMortgagePayMan l = 0 := by
  unfold estMortgagePayMan amortPaymentMan
  rw [if_pos hl]

/-- The mortgage payment is non-negative. -/
theorem estMortgagePayMan_nonneg (l : ℚ) : 0 ≤ estMortgagePayMan l := by
  rcases le_or_lt l 0 with hl | hl
  · rw [estMortgagePayMan_of_nonpos hl]
  · rw [estMortgagePayMan_eq hl]
    exact mul_nonneg hl.le policyPayCoeff_pos.le

/-- The mortgage payment is monotone in the principal. -/
theorem estMortgagePayMan_mono {l₁ l₂ : ℚ} (h : l₁ ≤ l₂) :
    estMortgagePayMan l₁ ≤ estMortgagePayMan l₂ := by
  rcases le_or_lt l₁ 0 with h1 | h1
  · rw [estMortgagePayMan_of_nonpos h1]
    exact estMortgagePayMan_nonneg l₂
  · rw [estMortgagePayMan_eq h1, estMortgagePayMan_eq (lt_of_lt_of_le h1 h)]
    exact mul_le_mul_of_nonneg_right h policyPayCoeff_pos.le

/-- At a positive payment, the recovered principal times the policy payment
coefficient gives back the payment. -/
theorem principalFromPaymentMan_mul {pay : ℚ} (hpay : 0 < pay) :
    principalFromPaymentMan pay POLICY.annualRatePct POLICY.years * policyPayCoeff = pay := by
  have h1 := policyPow_gt_one
  have h2 := policyRate_pos
  unfold policyPow at h1
  have hX0 : (0:ℚ) < (1 + POLICY.annualRatePct / 100 / 12) ^ nMonths POLICY.years := by
    nlinarith
  have hX1 : (1 + POLICY.annualRatePct / 100 / 12) ^ nMonths POLICY.years - 1 ≠ 0 := by
    nlinarith
  simp only [principalFromPaymentMan]
  rw [if_neg (not_le.mpr hpay), if_neg (ne_of_gt policyRate_pos)]
  unfold policyPayCoeff policyPow
  set r := POLICY.annualRatePct / 100 / 12 with hrdef
  set X := (1 + r) ^ nMonths POLICY.years with hXdef
  have hr0 : r ≠ 0 := ne_of_gt h2
  have hXne : X ≠ 0 := ne_of_gt hX0
  field_simp

/-- The estimated other-debt payment is non-negative. -/
theorem estOtherDebtPayMan_nonneg (o : ℚ) : 0 ≤ estOtherDebtPayMan o := by
  unfold estOtherDebtPayMan
  split_ifs with h
  · have : (0:ℚ) ≤ POLICY.otherDebtMonthlyPct / 100 := by norm_num [POLICY]
    exact mul_nonneg h.le this
  · exact le_refl 0

/-- The input-validity reason list is empty exactly when all four validity
conditions hold. -/
theorem inputValidityReasons_eq_nil_iff (i a o l : ℚ) :
    inputValidityReasons i a o l = [] ↔ (0 < i ∧ 0 < l ∧ 0 ≤ a ∧ 0 ≤ o) := by
  unfold inputValidityReasons
  by_cases h1 : i ≤ 0 <;> by_cases h2 : l ≤ 0 <;> by_cases h3 : a < 0 <;> by_cases h4 : o < 0 <;>
    simp [h1, h2, h3, h4, not_le.mp, not_lt.mp]

/-- The ratio reason list is empty exactly when all three ratio thresholds
are respected. -/
theorem ratioReasons_eq_nil_iff (i a o l : ℚ) :
    ratioReasons i a o l = [] ↔
      (dtiPct i o l ≤ POLICY.dtiMaxPct ∧ POLICY.downPaymentMinPct ≤ downPaymentPct a l ∧
        lti i l ≤ POLICY.ltiMax) := by
  unfold ratioReasons
  by_cases h1 : POLICY.dtiMaxPct < dtiPct i o l <;>
    by_cases h2 : downPaymentPct a l < POLICY.downPaymentMinPct <;>
      by_cases h3 : POLICY.ltiMax < lti i l <;>
        simp [h1, h2, h3, not_lt.mp]

/-- The full gate reason list is empty exactly when every validity condition
and every ratio threshold is satisfied. -/
theorem gateReasons_eq_nil_iff (i a o l : ℚ) :
    gateReasons i a o l = [] ↔
      (0 < i ∧ 0 < l ∧ 0 ≤ a ∧ 0 ≤ o ∧ dtiPct i o l ≤ POLICY.dtiMaxPct ∧
        POLICY.downPaymentMinPct ≤ downPaymentPct a l ∧ lti i l ≤ POLICY.ltiMax) := by
  unfold gateReasons
  by_cases h : inputValidityReasons i a o l = []
  · rw [if_pos h, ratioReasons_eq_nil_iff]
    rw [inputValidityReasons_eq_nil_iff] at h
    obtain ⟨hi, hl, ha, ho⟩ := h
    constructor
    · rintro ⟨x, y, z⟩
      exact ⟨hi, hl, ha, ho, x, y, z⟩
    · rintro ⟨_, _, _, _, x, y, z⟩
      exact ⟨x, y, z⟩
  · rw [if_neg h]
    rw [inputValidityReasons_eq_nil_iff] at h
    constructor
    · intro hcontra
      exact absurd ((inputValidityReasons_eq_nil_iff i a o l).mp hcontra) h
    · rintro ⟨hi, hl, ha, ho, _, _, _⟩
      exact absurd ⟨hi, hl, ha, ho⟩ h

/-- PASS exactly when the gate reason list is empty. -/
theorem decision_eq_PASS_iff (i a o l : ℚ) :
    decision i a o l = Decision.PASS ↔ gateReasons i a o l = [] := by
  unfold decision
  by_cases h : gateReasons i a o l = []
  · simp [h]
  · have : 0 < (gateReasons i a o l).length := List.length_pos.mpr h
    simp [h, this]

/-- HOLD exactly when the gate reason list is non-empty. -/
theorem decision_eq_HOLD_iff (i a o l : ℚ) :
    decision i a o l = Decision.HOLD ↔ gateReasons i a o l ≠ [] := by
  unfold decision
  by_cases h : gateReasons i a o l = []
  · simp [h]
  · have : 0 < (gateReasons i a o l).length := List.length_pos.mpr h
    simp [h, this]

/-- Every element of the input-validity reason list is one of the four
validity messages. -/
theorem mem_inputValidityReasons {i a o l : ℚ} {x : String}
    (hx : x ∈ inputValidityReasons i a o l) :
    x = incomeInvalidMsg ∨ x = loanInvalidMsg ∨ x = assetsInvalidMsg ∨
      x = otherDebtInvalidMsg := by
  unfold inputValidityReasons at hx
  simp only [List.mem_append] at hx
  rcases hx with ((h | h) | h) | h <;> split_ifs at h <;>
    simp only [List.mem_singleton, List.not_mem_nil] at h <;> tauto

/-- `pickBottleneck` agrees with the specification's selection rule. -/
theorem pickBottleneck_eq_spec (d p l : ℚ) :
    pickBottleneck d p l = pickBottleneckSpec d p l := by
  unfold pickBottleneck pickBottleneckSpec
  by_cases h1 : 0 < d - POLICY.dtiMaxPct <;>
  by_cases h2 : 0 < POLICY.downPaymentMinPct - p <;>
  by_cases h3 : 0 < l - POLICY.ltiMax <;>
  by_cases h4 : POLICY.downPaymentMinPct - p ≤ d - POLICY.dtiMaxPct <;>
  by_cases h5 : l - POLICY.ltiMax ≤ d - POLICY.dtiMaxPct <;>
  by_cases h6 : l - POLICY.ltiMax ≤ POLICY.downPaymentMinPct - p <;>
  simp [h1, h2, h3, h4, h5, h6, List.filter, List.insertionSort, List.orderedInsert] <;>
  first
    | rfl
    | linarith

/-- `pickBottleneck` returns `none` exactly when no ratio threshold is
numerically violated. -/
theorem pickBottleneck_eq_none_iff (d p l : ℚ) :
    pickBottleneck d p l = none ↔
      (d ≤ POLICY.dtiMaxPct ∧ POLICY.downPaymentMinPct ≤ p ∧ l ≤ POLICY.ltiMax) := by
  rw [pickBottleneck_eq_spec]
  simp only [pickBottleneckSpec]
  split_ifs with hA hB hC <;>
  simp <;>
  first
    | (intro x y; linarith [hA.1])
    | (intro x y; linarith [hB.1])
    | (intro x y; linarith [hC])
    | (have hC' : l - POLICY.ltiMax ≤ 0 := by linarith [not_lt.mp hC]
       have hB' : POLICY.downPaymentMinPct - p ≤ 0 := by
         by_contra hb
         exact hB ⟨lt_of_not_le hb, by linarith⟩
       have hA' : d - POLICY.dtiMaxPct ≤ 0 := by
         by_contra ha2
         exact hA ⟨lt_of_not_le ha2, by linarith, by linarith⟩
       exact ⟨by linarith, by linarith, by linarith⟩)

/- ------------------------------------------------------------------ -/
/- Claim theorems                                                     -/
/- ------------------------------------------------------------------ -/

/-- C1: for every request payload, the gate decision returned by the POST
handler equals HOLD iff the gateReasons list is non-empty, and equals PASS
iff gateReasons is empty. -/
theorem C1_decision_consistency (E : Payload) :
    ((POST E).core.decision = Decision.HOLD ↔ (POST E).core.gateReasons ≠ []) ∧
    ((POST E).core.decision = Decision.PASS ↔ (POST E).core.gateReasons = []) := by
  simp only [POST, gateCore]
  exact ⟨decision_eq_HOLD_iff _ _ _ _, decision_eq_PASS_iff _ _ _ _⟩

/-- C4: `pickBottleneck` selects exactly the constraint with the largest
positive gap, with ties broken by the fixed precedence DTI > DOWN > LTI,
as expressed by the spec-side selector `pickBottleneckSpec`. -/
theorem C4_bottleneck_largest_gap (d p l : ℚ) :
    pickBottleneck d p l = pickBottleneckSpec d p l :=
  pickBottleneck_eq_spec d p l

/-- C7: two payloads that agree on the four numeric figures produce identical
gate results (decision, gateReasons, metrics, bottleneck, headroom, required),
whatever their age, job and family fields: soft flags never interfere. -/
theorem C7_soft_flag_noninterference (p q : Payload)
    (hi : p.incomeMan = q.incomeMan) (ha : p.assetsMan = q.assetsMan)
    (ho : p.otherDebtMan = q.otherDebtMan) (hl : p.loanRequestMan = q.loanRequestMan) :
    (POST p).core = (POST q).core := by
  simp only [POST]
  rw [hi, ha, ho, hl]

/-- C7 witness: a payload with age 50, a self-employed job and a child in the
family yields the same gate core as the payload with those fields absent. -/
theorem C7_soft_flag_noninterference_witness :
    (POST paySoftFlagged).core = (POST payUnflagged).core :=
  C7_soft_flag_noninterference paySoftFlagged payUnflagged rfl rfl rfl rfl

/-- C8: the three reported required adjustments are each non-negative and are
integer multiples of one tenth (rounded to one decimal place). -/
theorem C8_required_nonneg_rounded (E : Payload) :
    (0 ≤ (POST E).core.required.reduceLoanManForDTI ∧
      ∃ k : ℤ, (POST E).core.required.reduceLoanManForDTI = (k : ℚ) / 10) ∧
    (0 ≤ (POST E).core.required.increaseAssetsManForDownPayment ∧
      ∃ k : ℤ, (POST E).core.required.increaseAssetsManForDownPayment = (k : ℚ) / 10) ∧
    (0 ≤ (POST E).core.required.reduceOtherDebtMan ∧
      ∃ k : ℤ, (POST E).core.required.reduceOtherDebtMan = (k : ℚ) / 10) := by
  simp only [POST, gateCore, required]
  exact ⟨⟨round1_nonneg (le_max_left 0 _), ⟨jsRound (max 0 _ * 10), rfl⟩⟩,
    ⟨round1_nonneg (le_max_left 0 _), ⟨jsRound (max 0 _ * 10), rfl⟩⟩,
    ⟨round1_nonneg (le_max_left 0 _), ⟨jsRound (max 0 _ * 10), rfl⟩⟩⟩

/-- C10: the mutually exclusive branches of the remediation solver never
report a positive loan reduction and a positive other-debt reduction at the
same time: one of the two is always zero. -/
theorem C10_loan_or_debt_reduction_zero (E : Payload) :
    (POST E).core.required.reduceLoanManForDTI = 0 ∨
    (POST E).core.required.reduceOtherDebtMan = 0 := by
  simp only [POST, gateCore, required, requiredRaw]
  split_ifs <;> simp [round1_zero]

/-- C2 (amended): bottleneck is `none` whenever the decision is PASS, and is
non-`none` exactly when at least one ratio threshold is numerically violated
by the computed metrics — even when HOLD was triggered purely by
input-validity reasons, since the metrics are computed regardless. -/
theorem C2_amended_bottleneck (E : Payload) :
    ((POST E).core.decision = Decision.PASS → (POST E).core.bottleneck = none) ∧
    ((POST E).core.bottleneck ≠ none ↔
      (POLICY.dtiMaxPct < dtiPct E.incomeMan E.otherDebtMan E.loanRequestMan ∨
       downPaymentPct E.assetsMan E.loanRequestMan < POLICY.downPaymentMinPct ∨
       POLICY.ltiMax < lti E.incomeMan E.loanRequestMan)) := by
  simp only [POST, gateCore]
  constructor
  · intro h
    rw [decision_eq_PASS_iff, gateReasons_eq_nil_iff] at h
    obtain ⟨_, _, _, _, h5, h6, h7⟩ := h
    exact (pickBottleneck_eq_none_iff _ _ _).mpr ⟨h5, h6, h7⟩
  · rw [Ne, pickBottleneck_eq_none_iff]
    constructor
    · intro h
      by_contra hc
      push_neg at hc
      exact h ⟨hc.1, hc.2.1, hc.2.2⟩
    · intro h hcontra
      obtain ⟨x, y, z⟩ := hcontra
      rcases h with h | h | h <;> linarith

/-- C2 counterexample: with income 0 and loan request 3000 the decision is
HOLD purely from the income-validity reason, yet the bottleneck is DOWN (the
down-payment ratio 0% is numerically below the 10% floor), contradicting the
claim that the bottleneck is none whenever HOLD is triggered purely by
input-validity reasons. -/
theorem C2_counterexample :
    (POST payIncomeZero).core.decision = Decision.HOLD ∧
    (POST payIncomeZero).core.gateReasons = [incomeInvalidMsg] ∧
    (POST payIncomeZero).core.bottleneck = some BottleneckKey.DOWN := by
  norm_num [POST, gateCore, decision, gateReasons, inputValidityReasons, ratioReasons,
    dtiPct, downPaymentPct, lti, monthlyIncomeMan, estOtherDebtPayMan, payIncomeZero,
    pickBottleneck, POLICY, List.filter, List.insertionSort, List.orderedInsert]

/-- C2 witness: at the income-zero payload the amended theorem yields a
non-`none` bottleneck from the violated down-payment threshold. -/
theorem C2_amended_bottleneck_witness :
    (POST payIncomeZero).core.bottleneck ≠ none := by
  refine (C2_amended_bottleneck payIncomeZero).2.mpr ?_
  right; left
  norm_num [payIncomeZero, downPaymentPct, POLICY]

/-- C5: when any input-validity condition fires, the gate reason list consists
exactly of the input-validity reasons and contains no ratio-violation
message. -/
theorem C5_validity_short_circuit (E : Payload)
    (h : E.incomeMan ≤ 0 ∨ E.loanRequestMan ≤ 0 ∨ E.assetsMan < 0 ∨ E.otherDebtMan < 0) :
    (POST E).core.gateReasons =
      inputValidityReasons E.incomeMan E.assetsMan E.otherDebtMan E.loanRequestMan ∧
    dtiViolationMsg ∉ (POST E).core.gateReasons ∧
    downViolationMsg ∉ (POST E).core.gateReasons ∧
    ltiViolationMsg ∉ (POST E).core.gateReasons := by
  have hne : inputValidityReasons E.incomeMan E.assetsMan E.otherDebtMan E.loanRequestMan ≠
      [] := by
    rw [Ne, inputValidityReasons_eq_nil_iff]
    rintro ⟨hi, hl, ha, ho⟩
    rcases h with h | h | h | h <;> linarith
  have hg : (POST E).core.gateReasons =
      inputValidityReasons E.incomeMan E.assetsMan E.otherDebtMan E.loanRequestMan := by
    simp only [POST, gateCore, gateReasons]
    rw [if_neg hne]
  refine ⟨hg, ?_, ?_, ?_⟩ <;> rw [hg] <;> intro hmem <;>
    rcases mem_inputValidityReasons hmem with h' | h' | h' | h' <;>
    simp [dtiViolationMsg, downViolationMsg, ltiViolationMsg, incomeInvalidMsg,
      loanInvalidMsg, assetsInvalidMsg, otherDebtInvalidMsg] at h'

/-- C5 witness: at the income-zero payload the reason list is exactly the
input-validity list and holds no ratio message. -/
theorem C5_validity_short_circuit_witness :
    (POST payIncomeZero).core.gateReasons =
      inputValidityReasons payIncomeZero.incomeMan payIncomeZero.assetsMan
        payIncomeZero.otherDebtMan payIncomeZero.loanRequestMan ∧
    dtiViolationMsg ∉ (POST payIncomeZero).core.gateReasons ∧
    downViolationMsg ∉ (POST payIncomeZero).core.gateReasons ∧
    ltiViolationMsg ∉ (POST payIncomeZero).core.gateReasons :=
  C5_validity_short_circuit payIncomeZero (Or.inl (by norm_num [payIncomeZero]))

/-- C6 (amended): with the other figures held fixed, increasing the loan
request never decreases dtiPct or lti; the down-payment percentage is
non-increasing provided assets and the smaller loan are non-negative (with a
negative assets figure it can increase). -/
theorem C6_amended_monotonicity (incomeMan assetsMan otherDebtMan l₁ l₂ : ℚ)
    (hl : l₁ ≤ l₂) :
    dtiPct incomeMan otherDebtMan l₁ ≤ dtiPct incomeMan otherDebtMan l₂ ∧
    lti incomeMan l₁ ≤ lti incomeMan l₂ ∧
    (0 ≤ assetsMan → 0 ≤ l₁ →
      downPaymentPct assetsMan l₂ ≤ downPaymentPct assetsMan l₁) := by
  refine ⟨?_, ?_, ?_⟩
  · unfold dtiPct
    by_cases hm : 0 < monthlyIncomeMan incomeMan
    · rw [if_pos hm, if_pos hm]
      have hM := estMortgagePayMan_mono hl
      exact mul_le_mul_of_nonneg_right
        ((div_le_div_iff_of_pos_right hm).mpr (by linarith)) (by norm_num)
    · rw [if_neg hm, if_neg hm]
  · unfold lti
    by_cases hi : 0 < incomeMan
    · rw [if_pos hi, if_pos hi]
      exact (div_le_div_iff_of_pos_right hi).mpr hl
    · rw [if_neg hi, if_neg hi]
  · intro ha hl1
    unfold downPaymentPct
    rcases eq_or_lt_of_le ha with haz | hapos
    · rw [← haz]
      split_ifs <;> simp
    · rw [if_pos (by linarith : (0:ℚ) < l₁ + assetsMan),
        if_pos (by linarith : (0:ℚ) < l₂ + assetsMan)]
      exact mul_le_mul_of_nonneg_right
        (div_le_div_of_nonneg_left ha (by linarith) (by linarith)) (by norm_num)

/-- C6 counterexample: with assets −10 held fixed, raising the loan request
from 20 to 30 strictly increases the computed down-payment percentage
(−100% to −50%), contradicting the claimed non-increase. -/
theorem C6_counterexample : downPaymentPct (-10) 20 < downPaymentPct (-10) 30 := by
  norm_num [downPaymentPct]

/-- C6 witness: at income 600, assets 300, no other debt, loans 3000 ≤ 4000,
the three monotonicity conclusions hold. -/
theorem C6_amended_monotonicity_witness :
    dtiPct 600 0 3000 ≤ dtiPct 600 0 4000 ∧
    lti 600 3000 ≤ lti 600 4000 ∧
    downPaymentPct 300 4000 ≤ downPaymentPct 300 3000 := by
  have h := C6_amended_monotonicity 600 300 0 3000 4000 (by norm_num)
  exact ⟨h.1, h.2.1, h.2.2 (by norm_num) (by norm_num)⟩

/-- C3: for every positive principal, non-negative annual rate and positive
term, recovering the principal from the amortized monthly payment is the
exact inverse, in both the zero-rate and the positive-rate branch. -/
theorem C3_payment_principal_roundtrip (P rate years : ℚ)
    (hP : 0 < P) (hrate : 0 ≤ rate) (_hy : 0 < years) :
    principalFromPaymentMan (amortPaymentMan P rate years) rate years = P := by
  have hn : 0 < nMonths years := nMonths_pos years
  have hnq : (0:ℚ) < (nMonths years : ℚ) := by exact_mod_cast hn
  by_cases hr0 : rate / 100 / 12 = 0
  · have hpay : amortPaymentMan P rate years = P / (nMonths years : ℚ) := by
      simp only [amortPaymentMan]
      rw [if_neg (not_le.mpr hP), if_pos hr0]
    rw [hpay]
    simp only [principalFromPaymentMan]
    rw [if_neg (not_le.mpr (div_pos hP hnq)), if_pos hr0]
    field_simp
  · have hrpos : 0 < rate / 100 / 12 := by
      rcases lt_or_eq_of_le hrate with h | h
      · positivity
      · exact absurd (by rw [← h]; norm_num) hr0
    have hb := one_add_mul_le_pow (by linarith : (-2:ℚ) ≤ rate / 100 / 12) (nMonths years)
    have hn1 : (1:ℚ) ≤ (nMonths years : ℚ) := by exact_mod_cast hn
    have hpow : 1 < (1 + rate / 100 / 12) ^ nMonths years := by nlinarith
    have hpow0 : (0:ℚ) < (1 + rate / 100 / 12) ^ nMonths years := by positivity
    have hpaypos : 0 < P * (rate / 100 / 12) * ((1 + rate / 100 / 12) ^ nMonths years) /
        ((1 + rate / 100 / 12) ^ nMonths years - 1) := by
      apply div_pos
      · have := mul_pos (mul_pos hP hrpos) hpow0
        linarith
      · linarith
    have hpayeq : amortPaymentMan P rate years =
        P * (rate / 100 / 12) * ((1 + rate / 100 / 12) ^ nMonths years) /
          ((1 + rate / 100 / 12) ^ nMonths years - 1) := by
      simp only [amortPaymentMan]
      rw [if_neg (not_le.mpr hP), if_neg hr0]
    rw [hpayeq]
    simp only [principalFromPaymentMan]
    rw [if_neg (not_le.mpr hpaypos), if_neg hr0]
    set r := rate / 100 / 12 with hrdef
    set X := (1 + r) ^ nMonths years with hXdef
    have hX1 : X - 1 ≠ 0 := by linarith
    have hXne : X ≠ 0 := ne_of_gt hpow0
    have hrne : r ≠ 0 := hr0
    field_simp
    ring

/-- C3 witness: the round trip at principal 1000, the policy rate 1.5% and a
35-year term. -/
theorem C3_payment_principal_roundtrip_witness :
    principalFromPaymentMan (amortPaymentMan 1000 (3/2) 35) (3/2) 35 = 1000 :=
  C3_payment_principal_roundtrip 1000 (3/2) 35 (by norm_num) (by norm_num) (by norm_num)

/-- C9: whenever the decision is PASS, all three reported required
adjustments are zero. -/
theorem C9_pass_implies_zero_required (E : Payload)
    (h : (POST E).core.decision = Decision.PASS) :
    (POST E).core.required =
      { reduceLoanManForDTI := 0, increaseAssetsManForDownPayment := 0,
        reduceOtherDebtMan := 0 } := by
  simp only [POST, gateCore] at h ⊢
  rw [decision_eq_PASS_iff, gateReasons_eq_nil_iff] at h
  obtain ⟨hi, hl, ha, ho, hdti, hdown, hlti⟩ := h
  set i := E.incomeMan
  set a := E.assetsMan
  set o := E.otherDebtMan
  set l := E.loanRequestMan
  have hm : monthlyIncomeMan i = i / 12 := by unfold monthlyIncomeMan; rw [if_pos hi]
  have hmpos : 0 < i / 12 := by positivity
  have hM : estMortgagePayMan l = l * policyPayCoeff := estMortgagePayMan_eq hl
  have hMpos : 0 < estMortgagePayMan l := by
    rw [hM]; exact mul_pos hl policyPayCoeff_pos
  have hD := estOtherDebtPayMan_nonneg o
  have hdti' : (estMortgagePayMan l + estOtherDebtPayMan o) / (i / 12) * 100 ≤ 35 := by
    have hdmax : POLICY.dtiMaxPct = (35:ℚ) := rfl
    unfold dtiPct at hdti
    rw [hm] at hdti
    rw [if_pos hmpos] at hdti
    rw [hdmax] at hdti
    exact hdti
  have hdti2 : (estMortgagePayMan l + estOtherDebtPayMan o) * 100 ≤ 35 * (i / 12) := by
    rw [div_mul_eq_mul_div, div_le_iff₀ hmpos] at hdti'
    exact hdti'
  have hallow : ¬ (i / 12 * (POLICY.dtiMaxPct / 100) - estOtherDebtPayMan o ≤ 0) := by
    have hdmax : POLICY.dtiMaxPct = (35:ℚ) := rfl
    rw [hdmax]
    push_neg
    nlinarith [hdti2, hMpos]
  have hallowpos : 0 < i / 12 * (POLICY.dtiMaxPct / 100) - estOtherDebtPayMan o :=
    lt_of_not_le hallow
  have hPA := principalFromPaymentMan_mul hallowpos
  have hc := policyPayCoeff_pos
  have hred : ¬ (0 < l - principalFromPaymentMan
      (i / 12 * (POLICY.dtiMaxPct / 100) - estOtherDebtPayMan o)
      POLICY.annualRatePct POLICY.years) := by
    push_neg
    have hMle : estMortgagePayMan l ≤
        i / 12 * (POLICY.dtiMaxPct / 100) - estOtherDebtPayMan o := by
      have hdmax : POLICY.dtiMaxPct = (35:ℚ) := rfl
      rw [hdmax]
      linarith
    have hlc : l * policyPayCoeff ≤ principalFromPaymentMan
        (i / 12 * (POLICY.dtiMaxPct / 100) - estOtherDebtPayMan o)
        POLICY.annualRatePct POLICY.years * policyPayCoeff := by
      rw [hPA, ← hM]
      exact hMle
    have := le_of_mul_le_mul_right hlc hc
    linarith
  have hla : 0 < l + a := by linarith
  have hdown2 : (10:ℚ) ≤ a / (l + a) * 100 := by
    have hdmin : POLICY.downPaymentMinPct = (10:ℚ) := rfl
    unfold downPaymentPct at hdown
    rw [if_pos hla] at hdown
    rw [hdmin] at hdown
    exact hdown
  have hdown3 : 10 * (l + a) ≤ a * 100 := by
    rw [div_mul_eq_mul_div, le_div_iff₀ hla] at hdown2
    exact hdown2
  have hinc : ¬ (0 < POLICY.downPaymentMinPct / (100 - POLICY.downPaymentMinPct) * l - a) := by
    have hdmin : POLICY.downPaymentMinPct = (10:ℚ) := rfl
    rw [hdmin]
    push_neg
    nlinarith [hdown3]
  unfold required requiredRaw
  rw [if_pos ⟨hi, hl⟩]
  rw [hm]
  simp only [if_neg hallow, if_neg hred, if_neg hinc]
  simp [round1_zero]

/-- C9 witness: the passing payload (income 600, assets 400, loan 3000)
yields the all-zero required object. -/
theorem C9_pass_implies_zero_required_witness :
    (POST payPassing).core.required =
      { reduceLoanManForDTI := 0, increaseAssetsManForDownPayment := 0,
        reduceOtherDebtMan := 0 } := by
  apply C9_pass_implies_zero_required
  have hdec : decision 600 400 0 3000 = Decision.PASS := by
    rw [decision_eq_PASS_iff, gateReasons_eq_nil_iff]
    refine ⟨by norm_num, by norm_num, by norm_num, by norm_num, ?_, ?_, ?_⟩
    · unfold dtiPct monthlyIncomeMan estOtherDebtPayMan
      rw [estMortgagePayMan_eq (by norm_num : (0:ℚ) < 3000)]
      unfold policyPayCoeff policyPow
      rw [nMonths_policy]
      norm_num [POLICY]
    · unfold downPaymentPct
      norm_num [POLICY]
    · unfold lti
      norm_num [POLICY]
  simpa only [POST, gateCore, payPassing] using hdec

end EvaeGate

